import Mathlib

/-!
Shallow embedding of `youtube_extractor.py` (class `YouTubeExtractor` and the
façade `process_youtube_video`).  External effects (the captions API, the
subprocess invocations of yt-dlp/ffmpeg/whisper, the HTTP endpoints, the
filesystem) are modelled as an environment record supplied to each function;
the functions themselves mirror the Python control flow.  Python exceptions
that can cross a function boundary are modelled with `Except`; a function whose
body is wrapped in a catch-all `except` is modelled as the match on its body's
`Except` result.
-/

namespace YT

/-- Python exceptions that appear in the source. -/
inductive PyErr where
  | valueError (msg : String)
  | exception (msg : String)
  deriving DecidableEq, Repr

/-! ### Identifier resolver: `extract_video_id` (lines 16–27)

The two patterns are `r'(?:v=|/)([0-9A-Za-z_-]{11}).*'` and
`r'youtu.be/([0-9A-Za-z_-]{11})'`, tried in order with `re.search`
(leftmost match; at one position, alternatives tried left to right). -/

/-- The character class `[0-9A-Za-z_-]`. -/
def isIdChar (c : Char) : Bool :=
  c.isDigit || (c ≥ 'A' && c ≤ 'Z') || (c ≥ 'a' && c ≤ 'z') || c = '_' || c = '-'

/-- Match exactly `n` characters of the class `[0-9A-Za-z_-]` at the head,
returning them (the regex `{11}` repetition). -/
def matchIdRun : List Char → Nat → Option (List Char)
  | _, 0 => some []
  | [], _ + 1 => none
  | c :: cs, n + 1 =>
      if isIdChar c then (matchIdRun cs n).map (c :: ·) else none

/-- Try pattern 1, `(?:v=|/)([0-9A-Za-z_-]{11}).*`, anchored at this position:
the alternation tries `v=` first, then `/`; the trailing `.*` always matches. -/
def p1At : List Char → Option (List Char)
  | c₁ :: c₂ :: rest =>
      if c₁ = 'v' && c₂ = '=' then matchIdRun rest 11
      else if c₁ = '/' then matchIdRun (c₂ :: rest) 11
      else none
  | [c₁] => if c₁ = '/' then matchIdRun [] 11 else none
  | [] => none

/-- `re.search` for pattern 1: try each position left to right. -/
def searchP1 : List Char → Option (List Char)
  | [] => none
  | c :: cs =>
      match p1At (c :: cs) with
      | some r => some r
      | none => searchP1 cs

/-- Try pattern 2, `youtu.be/([0-9A-Za-z_-]{11})`, anchored at this position.
The `.` in `youtu.be` is the regex wildcard (any character but newline). -/
def p2At : List Char → Option (List Char)
  | 'y' :: 'o' :: 'u' :: 't' :: 'u' :: w :: 'b' :: 'e' :: '/' :: rest =>
      if w ≠ '\n' then matchIdRun rest 11 else none
  | _ => none

/-- `re.search` for pattern 2. -/
def searchP2 : List Char → Option (List Char)
  | [] => none
  | c :: cs =>
      match p2At (c :: cs) with
      | some r => some r
      | none => searchP2 cs

/-- `extract_video_id` (lines 16–27): try the patterns in order; on the first
match return group 1; if none matches raise `ValueError`. -/
def extract_video_id (url : List Char) : Except PyErr (List Char) :=
  match searchP1 url with
  | some r => .ok r
  | none =>
      match searchP2 url with
      | some r => .ok r
      | none => .error (.valueError "无法从URL中提取视频ID")

/-! ### Caption source adapter (lines 29–60) -/

/-- A transcript object yielded by `YouTubeTranscriptApi.list_transcripts`;
only the three fields the source reads. -/
structure RawTranscript where
  language_code : String
  language : String
  is_generated : Bool
  deriving DecidableEq, Repr

/-- One dict of the list built by `get_available_transcript_languages`. -/
structure LangInfo where
  language_code : String
  language : String
  is_generated : Bool
  deriving DecidableEq, Repr

/-- The dict built at lines 35–39 from one API transcript object. -/
def toLangInfo (t : RawTranscript) : LangInfo :=
  ⟨t.language_code, t.language, t.is_generated⟩

/-- `get_available_transcript_languages` (lines 29–43).  The API call either
returns the catalogue or raises (modelled by the `Except` argument); any
exception is caught, printed, and an empty list is returned. -/
def get_available_transcript_languages
    (api : Except String (List RawTranscript)) : List LangInfo :=
  match api with
  | .ok ts => ts.map toLangInfo
  | .error _ => []

/-- The `self.transcript` attribute: `None` initially, a string once set. -/
abbrev Stored := Option String

/-- Python truthiness of `self.transcript` (`if not self.transcript`). -/
def truthy : Stored → Bool
  | none => false
  | some s => s ≠ ""

/-- `' '.join(...)` over the entry texts (line 55). -/
def joinSpaces (l : List String) : String := String.intercalate " " l

/-- `get_transcript` (lines 45–60).  `fetch` is the outcome of the
`YouTubeTranscriptApi.get_transcript` call for the requested language: the
entry texts, or a raised exception.  On success the joined text is stored in
`self.transcript` and `(text, True)` returned; any exception yields
`("", False)` with the stored transcript untouched. -/
def get_transcript (fetch : Except String (List String)) (tr : Stored) :
    (String × Bool) × Stored :=
  match fetch with
  | .ok entries =>
      let full_text := joinSpaces entries
      ((full_text, true), some full_text)
  | .error _ => (("", false), tr)

/-! ### Audio acquisition and transcription (lines 62–183) -/

/-- Outcome of one `subprocess.run(..., check=True)` invocation. -/
inductive Subp where
  | ok
  /-- raised `subprocess.CalledProcessError` (non-zero exit with `check=True`) -/
  | cpe (msg : String)
  /-- raised `FileNotFoundError`/`OSError` (e.g. the binary is absent) -/
  | oserr (msg : String)
  deriving DecidableEq, Repr

/-- The external world seen by `download_audio_and_transcribe`. -/
structure MediaEnv where
  /-- `ffmpeg -version` runs without raising (lines 78–80) -/
  ffmpegOk : Bool
  /-- the primary `yt-dlp` bestaudio download (line 95) -/
  download : Subp
  /-- `os.listdir` finds a file named after the video id other than the
  `.mp3` (lines 98–101) -/
  filesFound : Bool
  /-- the `ffmpeg` conversion to mp3 (line 116) -/
  convert : Subp
  /-- the fallback `yt-dlp --extract-audio` download (line 133):
  `none` means it ran fine, `some msg` that it raised -/
  fallbackDl : Option String
  /-- `os.path.exists(audio_path)` after the download stage (line 135) -/
  audioExists : Bool
  /-- the `whisper` CLI subprocess runs without raising (line 153) -/
  whisperCliOk : Bool
  /-- the transcript `.txt` file exists after the CLI run (line 172) -/
  cliFileExists : Bool
  /-- its content, read at line 174 -/
  cliFileText : String
  /-- the in-process whisper transcription and manual save succeed
  (lines 158–166) -/
  whisperApiOk : Bool
  /-- the text it produces -/
  whisperApiText : String
  deriving Repr

/-- Observable outcome of the body of `download_audio_and_transcribe`
(the code inside the outer `try`, lines 64–179). -/
structure MediaOut where
  /-- the returned string, or the message of an exception escaping the body
  (to be caught by the outer `except` at line 181) -/
  result : Except String String
  /-- `self.transcript` afterwards -/
  stored : Stored
  /-- number of `yt-dlp` invocations performed -/
  downloads : Nat
  /-- the final readback of the transcript file succeeded (line 172 branch) -/
  readbackOk : Bool
  deriving Repr

/-- Lines 171–179: read back the transcript file; on success store and return
its text, otherwise return the "output file not found" message. -/
def mediaReadback (fileExists : Bool) (text : String) (tr : Stored) (d : Nat) :
    MediaOut :=
  if fileExists then ⟨.ok text, some text, d, true⟩
  else ⟨.ok "转录完成，但找不到输出文件。", tr, d, false⟩

/-- Lines 139–169: the whisper CLI, falling back to the in-process API (which
writes the transcript file itself), then the readback. -/
def mediaTranscribe (env : MediaEnv) (tr : Stored) (d : Nat) : MediaOut :=
  if env.whisperCliOk then mediaReadback env.cliFileExists env.cliFileText tr d
  else if env.whisperApiOk then mediaReadback true env.whisperApiText tr d
  else ⟨.ok "音频转录失败。", tr, d, false⟩

/-- Lines 135–179: the audio-artifact existence check (raising
`FileNotFoundError` — the recorded message elides the concrete path), then
transcription. -/
def mediaAfterDownload (env : MediaEnv) (tr : Stored) (d : Nat) : MediaOut :=
  if env.audioExists then mediaTranscribe env tr d
  else ⟨.error "下载失败，无法找到文件: ", tr, d, false⟩

/-- The body of `download_audio_and_transcribe` (inside the outer `try`,
lines 64–179).  The inner `except subprocess.CalledProcessError` (line 121)
catches only `cpe` outcomes of the download/convert commands and runs the
fallback download; `oserr` outcomes and the raised `FileNotFoundError` of
line 102 escape to the outer handler. -/
def mediaBody (env : MediaEnv) (tr : Stored) : MediaOut :=
  if env.ffmpegOk then
    match env.download with
    | .oserr m => ⟨.error m, tr, 1, false⟩
    | .cpe _ =>
        match env.fallbackDl with
        | some m => ⟨.error m, tr, 2, false⟩
        | none => mediaAfterDownload env tr 2
    | .ok =>
        if env.filesFound then
          match env.convert with
          | .oserr m => ⟨.error m, tr, 1, false⟩
          | .cpe _ =>
              match env.fallbackDl with
              | some m => ⟨.error m, tr, 2, false⟩
              | none => mediaAfterDownload env tr 2
          | .ok => mediaAfterDownload env tr 1
        else ⟨.error "下载文件未找到", tr, 1, false⟩
  else ⟨.ok "无法处理音频：缺少ffmpeg。请安装后再试。", tr, 0, false⟩

/-- `download_audio_and_transcribe` (lines 62–183): the body wrapped in the
outer catch-all `except`, which converts any escaping exception into the
string `"处理失败: " ++ msg`.  The function therefore always returns a plain
string to its caller. -/
def download_audio_and_transcribe (env : MediaEnv) (tr : Stored) : String :=
  match (mediaBody env tr).result with
  | .ok s => s
  | .error m => "处理失败: " ++ m

/-! ### Analysis backends (lines 185–243) -/

/-- The HTTP response of the local (ollama) endpoint: status, raw body text,
and the `response` field of its JSON body. -/
structure LocalResp where
  status : Nat
  text : String
  response : String
  deriving DecidableEq, Repr

/-- `analyze_with_local_llm` (lines 185–208).  `call` is the outcome of
`requests.post`: a response, or a raised exception (connection refused …).
The pair's second component counts network calls attempted.  The only
exception that escapes to the caller is the `ValueError` of line 188. -/
def analyze_with_local_llm (tr : Stored) (prompt : String)
    (call : Except String LocalResp) : Except PyErr String × Nat :=
  if truthy tr then
    match call with
    | .ok resp =>
        if resp.status = 200 then (.ok resp.response, 1)
        else (.ok ("分析失败: " ++ toString resp.status ++ " - " ++ resp.text), 1)
    | .error m => (.ok ("分析过程中出错: " ++ m), 1)
  else (.error (.valueError "请先获取字幕内容"), 0)

/-- The HTTP response of the remote (Claude) endpoint: status, raw body text,
and the `text` fields of the `content` array of its JSON body. -/
structure RemoteResp where
  status : Nat
  text : String
  content : List String
  deriving DecidableEq, Repr

/-- `analyze_with_claude_basic` (lines 210–243).  The pair's second component
counts network calls attempted.  On 200 it returns
`response.json()['content'][0]['text']` (an `IndexError` if the array is
empty); otherwise it raises `Exception` with status and body interpolated. -/
def analyze_with_claude_basic (tr : Stored) (api_key prompt : String)
    (resp : RemoteResp) : Except PyErr String × Nat :=
  if truthy tr then
    if resp.status = 200 then
      match resp.content with
      | c :: _ => (.ok c, 1)
      | [] => (.error (.exception "list index out of range"), 1)
    else
      (.error (.exception ("API调用失败: " ++ toString resp.status ++ " - " ++ resp.text)), 1)
  else (.error (.valueError "请先获取字幕内容"), 0)

/-! ### The façade `process_youtube_video` (lines 245–285) -/

/-- The external world seen by one `process_youtube_video` invocation. -/
structure PipelineEnv where
  /-- outcome of `YouTubeTranscriptApi.list_transcripts` (line 32) -/
  listApi : Except String (List RawTranscript)
  /-- outcome of `YouTubeTranscriptApi.get_transcript` per requested
  language (line 49) -/
  fetch : String → Except String (List String)
  /-- the world of `download_audio_and_transcribe` -/
  media : MediaEnv
  /-- outcome of the `requests.post` to the local endpoint (line 192) -/
  localCall : Except String LocalResp

/-- Python's `lang['language_code'].startswith('zh')` (line 255): the first
two characters are `zh`. -/
def zhPred (l : LangInfo) : Bool :=
  l.language_code.data.take 2 = ['z', 'h']

/-- Lines 254–260: `chinese_subs[0]` when the `zh`-filtered list is
non-empty, else `available_languages[0]`. -/
def selectLang (a : LangInfo) (rest : List LangInfo) : LangInfo :=
  match (a :: rest).filter zhPred with
  | c :: _ => c
  | [] => a

/-- Outcome of the captions attempt, lines 253–262. -/
structure CapAttempt where
  text : String
  success : Bool
  stored : Stored
  selected : Option LangInfo
  deriving Repr

/-- Lines 253–262: pick a track and fetch it, or `("", False)` when the
catalogue is empty.  The extractor is freshly constructed (line 247), so the
stored transcript starts as `None`. -/
def acquireCaptions (fetch : String → Except String (List String))
    (available : List LangInfo) : CapAttempt :=
  match available with
  | [] => ⟨"", false, none, none⟩
  | a :: rest =>
      let sel := selectLang a rest
      let r := get_transcript (fetch sel.language_code) none
      ⟨r.1.1, r.1.2, r.2, some sel⟩

/-- Outcome of the fallback step, lines 264–267. -/
structure FbOut where
  transcript : String
  stored : Stored
  calls : Nat
  readbackOk : Bool
  deriving Repr

/-- Lines 264–267: `if not success or not transcript:` run the fallback. -/
def applyFallback (menv : MediaEnv) (cap : CapAttempt) : FbOut :=
  if !cap.success || cap.text = "" then
    ⟨download_audio_and_transcribe menv cap.stored,
     (mediaBody menv cap.stored).stored, 1, (mediaBody menv cap.stored).readbackOk⟩
  else ⟨cap.text, cap.stored, 0, false⟩

/-- Outcome of the analysis step, lines 269–278. -/
structure AnOut where
  analysis : String
  attempted : Bool
  deriving Repr

/-- Lines 269–278: `analysis_result = "未进行分析"`; if the transcript is
truthy, attempt the local analysis, keeping the sentinel when it raises. -/
def analysisStep (st : Stored) (prompt : String)
    (call : Except String LocalResp) (transcript : String) : AnOut :=
  if transcript = "" then ⟨"未进行分析", false⟩
  else
    match (analyze_with_local_llm st prompt call).1 with
    | .ok s => ⟨s, true⟩
    | .error _ => ⟨"未进行分析", true⟩

/-- The dict returned at lines 280–285, plus instrumentation fields recording
what the invocation did (they are not part of the Python return value). -/
structure FacadeResult where
  video_id : List Char
  available_languages : List LangInfo
  transcript : String
  analysis : String
  /-- number of `download_audio_and_transcribe` invocations -/
  fallbackCalls : Nat
  /-- `analyze_with_local_llm` was called (line 275 reached) -/
  analysisAttempted : Bool
  /-- `self.transcript` at the end -/
  stored : Stored
  /-- the fallback's transcript-file readback succeeded -/
  fallbackReadbackOk : Bool
  /-- the caption track whose language was requested, if any -/
  selected : Option LangInfo

/-- The body of `process_youtube_video` after the extractor has been
constructed (steps 1–3, lines 249–285). -/
def facadeRun (env : PipelineEnv) (vid : List Char) (analysis_prompt : String) :
    FacadeResult :=
  let available := get_available_transcript_languages env.listApi
  let cap := acquireCaptions env.fetch available
  let fb := applyFallback env.media cap
  let an := analysisStep fb.stored analysis_prompt env.localCall fb.transcript
  { video_id := vid
    available_languages := available
    transcript := fb.transcript
    analysis := an.analysis
    fallbackCalls := fb.calls
    analysisAttempted := an.attempted
    stored := fb.stored
    fallbackReadbackOk := fb.readbackOk
    selected := cap.selected }

/-- `process_youtube_video` (lines 245–285).  The only exception that can
escape is the `ValueError` of `extract_video_id` (raised while constructing
the extractor at line 247). -/
def process_youtube_video (env : PipelineEnv) (video_url : List Char)
    (analysis_prompt : String) : Except PyErr FacadeResult :=
  match extract_video_id video_url with
  | .error e => .error e
  | .ok vid => .ok (facadeRun env vid analysis_prompt)

/-! ### Helper lemmas -/

theorem matchIdRun_exact : ∀ (xs ys : List Char), (∀ c ∈ xs, isIdChar c) →
    matchIdRun (xs ++ ys) xs.length = some xs := by
  intro xs
  induction xs with
  | nil => intro ys _; simp [matchIdRun]
  | cons c cs ih =>
      intro ys h
      have hc : isIdChar c := h c (by simp)
      simp only [List.cons_append, List.length_cons, matchIdRun, List.append_eq,
        hc, if_true]
      rw [ih ys (fun x hx => h x (List.mem_cons_of_mem _ hx))]
      rfl

theorem append_ne_empty (s t : String) (h : s.data ≠ []) : s ++ t ≠ "" := by
  intro hc
  have hd := congrArg String.data hc
  rw [String.data_append] at hd
  rcases List.append_eq_nil.mp hd with ⟨h1, _⟩
  exact h h1

theorem filter_head_eq_find {α : Type} (p : α → Bool) (l : List α) :
    (l.filter p).head? = l.find? p := by
  induction l with
  | nil => rfl
  | cons a as ih =>
      by_cases h : p a
      · simp [List.filter_cons, List.find?_cons, h]
      · simp only [List.filter_cons, List.find?_cons, h]
        simpa [h] using ih

/-- On every path of the readback that does not succeed, the stored
transcript is unchanged and any string returned is non-empty. -/
theorem mediaReadback_fail_spec (fe : Bool) (t : String) (tr : Stored) (d : Nat)
    (h : (mediaReadback fe t tr d).readbackOk = false) :
    (mediaReadback fe t tr d).stored = tr ∧
      ∀ s, (mediaReadback fe t tr d).result = .ok s → s ≠ "" := by
  cases fe with
  | true => simp [mediaReadback] at h
  | false =>
      refine ⟨rfl, ?_⟩
      intro s hs
      simp only [mediaReadback, if_neg Bool.false_ne_true, Except.ok.injEq] at hs
      subst hs
      decide

theorem mediaTranscribe_fail_spec (env : MediaEnv) (tr : Stored) (d : Nat)
    (h : (mediaTranscribe env tr d).readbackOk = false) :
    (mediaTranscribe env tr d).stored = tr ∧
      ∀ s, (mediaTranscribe env tr d).result = .ok s → s ≠ "" := by
  unfold mediaTranscribe at *
  by_cases h1 : env.whisperCliOk
  · rw [if_pos h1] at h ⊢
    exact mediaReadback_fail_spec _ _ _ _ h
  · rw [if_neg h1] at h ⊢
    by_cases h2 : env.whisperApiOk
    · rw [if_pos h2] at h ⊢
      exact mediaReadback_fail_spec _ _ _ _ h
    · rw [if_neg h2] at h ⊢
      refine ⟨rfl, ?_⟩
      intro s hs
      simp only [Except.ok.injEq] at hs
      subst hs
      decide

theorem mediaAfterDownload_fail_spec (env : MediaEnv) (tr : Stored) (d : Nat)
    (h : (mediaAfterDownload env tr d).readbackOk = false) :
    (mediaAfterDownload env tr d).stored = tr ∧
      ∀ s, (mediaAfterDownload env tr d).result = .ok s → s ≠ "" := by
  unfold mediaAfterDownload at *
  by_cases h1 : env.audioExists
  · rw [if_pos h1] at h ⊢
    exact mediaTranscribe_fail_spec _ _ _ h
  · rw [if_neg h1] at h ⊢
    exact ⟨rfl, fun s hs => by simp at hs⟩

/-- On every path of the body that does not reach a successful readback, the
stored transcript is unchanged and any string returned is non-empty. -/
theorem mediaBody_fail_spec (env : MediaEnv) (tr : Stored)
    (h : (mediaBody env tr).readbackOk = false) :
    (mediaBody env tr).stored = tr ∧
      ∀ s, (mediaBody env tr).result = .ok s → s ≠ "" := by
  revert h
  unfold mediaBody
  cases hf : env.ffmpegOk with
  | false =>
      intro h
      refine ⟨rfl, fun s hs => ?_⟩
      injection hs with h2
      rw [← h2]; decide
  | true =>
      cases hd : env.download with
      | oserr m => exact fun h => ⟨rfl, fun s hs => Except.noConfusion hs⟩
      | cpe m =>
          cases hfb : env.fallbackDl with
          | some m2 => exact fun h => ⟨rfl, fun s hs => Except.noConfusion hs⟩
          | none => exact fun h => mediaAfterDownload_fail_spec _ _ _ h
      | ok =>
          cases hff : env.filesFound with
          | false => exact fun h => ⟨rfl, fun s hs => Except.noConfusion hs⟩
          | true =>
              cases hc : env.convert with
              | oserr m => exact fun h => ⟨rfl, fun s hs => Except.noConfusion hs⟩
              | cpe m =>
                  cases hfb : env.fallbackDl with
                  | some m2 => exact fun h => ⟨rfl, fun s hs => Except.noConfusion hs⟩
                  | none => exact fun h => mediaAfterDownload_fail_spec _ _ _ h
              | ok => exact fun h => mediaAfterDownload_fail_spec _ _ _ h

/-- When the readback did not succeed, the fallback's returned string is a
non-empty error message. -/
theorem download_ne_empty_of_fail (env : MediaEnv) (tr : Stored)
    (h : (mediaBody env tr).readbackOk = false) :
    download_audio_and_transcribe env tr ≠ "" := by
  unfold download_audio_and_transcribe
  cases hr : (mediaBody env tr).result with
  | ok s => exact (mediaBody_fail_spec env tr h).2 s hr
  | error m => exact append_ne_empty "处理失败: " m (by decide)

/-- If the fallback condition of line 265 holds, the transcript stored by the
captions attempt is falsy (either untouched `None` or the empty string
stored by a successful fetch of empty text). -/
theorem acquire_stored_falsy (f : String → Except String (List String))
    (available : List LangInfo)
    (h : (!(acquireCaptions f available).success
          || (acquireCaptions f available).text = "") = true) :
    truthy (acquireCaptions f available).stored = false := by
  cases available with
  | nil => rfl
  | cons a rest =>
      simp only [acquireCaptions] at h ⊢
      cases hf : f (selectLang a rest).language_code with
      | error m => simp [get_transcript, hf, truthy]
      | ok entries =>
          simp only [get_transcript, hf, Bool.not_true, Bool.false_or] at h
          simp only [get_transcript, hf, truthy]
          simp only [decide_eq_true_eq] at h ⊢
          simp [h]

/-- A successful façade run is exactly a successful resolution followed by
`facadeRun`. -/
theorem process_ok_elim (env : PipelineEnv) (url : List Char) (prompt : String)
    (r : FacadeResult)
    (hok : process_youtube_video env url prompt = .ok r) :
    ∃ vid, extract_video_id url = .ok vid ∧ r = facadeRun env vid prompt := by
  unfold process_youtube_video at hok
  cases hE : extract_video_id url with
  | error e => rw [hE] at hok; exact absurd hok (by simp)
  | ok vid =>
      rw [hE] at hok
      injection hok with h2
      exact ⟨vid, rfl, h2.symm⟩

theorem facadeRun_available (env : PipelineEnv) (vid : List Char) (p : String) :
    (facadeRun env vid p).available_languages
      = get_available_transcript_languages env.listApi := rfl

theorem facadeRun_selected (env : PipelineEnv) (vid : List Char) (p : String) :
    (facadeRun env vid p).selected
      = (acquireCaptions env.fetch
          (get_available_transcript_languages env.listApi)).selected := rfl

theorem facadeRun_calls (env : PipelineEnv) (vid : List Char) (p : String) :
    (facadeRun env vid p).fallbackCalls
      = (applyFallback env.media (acquireCaptions env.fetch
          (get_available_transcript_languages env.listApi))).calls := rfl

theorem facadeRun_transcript (env : PipelineEnv) (vid : List Char) (p : String) :
    (facadeRun env vid p).transcript
      = (applyFallback env.media (acquireCaptions env.fetch
          (get_available_transcript_languages env.listApi))).transcript := rfl

theorem facadeRun_stored (env : PipelineEnv) (vid : List Char) (p : String) :
    (facadeRun env vid p).stored
      = (applyFallback env.media (acquireCaptions env.fetch
          (get_available_transcript_languages env.listApi))).stored := rfl

theorem facadeRun_readback (env : PipelineEnv) (vid : List Char) (p : String) :
    (facadeRun env vid p).fallbackReadbackOk
      = (applyFallback env.media (acquireCaptions env.fetch
          (get_available_transcript_languages env.listApi))).readbackOk := rfl

theorem facadeRun_analysis (env : PipelineEnv) (vid : List Char) (p : String) :
    (facadeRun env vid p).analysis
      = (analysisStep
          (applyFallback env.media (acquireCaptions env.fetch
            (get_available_transcript_languages env.listApi))).stored
          p env.localCall
          (applyFallback env.media (acquireCaptions env.fetch
            (get_available_transcript_languages env.listApi))).transcript).analysis
      := rfl

theorem facadeRun_attempted (env : PipelineEnv) (vid : List Char) (p : String) :
    (facadeRun env vid p).analysisAttempted
      = (analysisStep
          (applyFallback env.media (acquireCaptions env.fetch
            (get_available_transcript_languages env.listApi))).stored
          p env.localCall
          (applyFallback env.media (acquireCaptions env.fetch
            (get_available_transcript_languages env.listApi))).transcript).attempted
      := rfl

/-! ### Claim theorems -/

/-- C5: for every 11-character token of the id alphabet, the long form
(`watch?v=`) and the short-link form resolve to that identical token
(whatever trails it); when neither pattern matches, resolution fails with
the `ValueError` modelling InvalidReference; and the short-link pattern is
consulted only when the first pattern fails — a first-pattern match decides
the result alone. -/
theorem claim5_resolver (id rest url : List Char)
    (hlen : id.length = 11) (hid : ∀ c ∈ id, isIdChar c) :
    extract_video_id ("https://www.youtube.com/watch?v=".data ++ (id ++ rest))
        = .ok id ∧
    extract_video_id ("https://youtu.be/".data ++ (id ++ rest)) = .ok id ∧
    (searchP1 url = none → searchP2 url = none →
      extract_video_id url = .error (.valueError "无法从URL中提取视频ID")) ∧
    (∀ r, searchP1 url = some r → extract_video_id url = .ok r) := by
  have h : matchIdRun (id ++ rest) 11 = some id := by
    rw [← hlen]; exact matchIdRun_exact id rest hid
  refine ⟨?_, ?_, ?_, ?_⟩
  · have hstep : searchP1 ("https://www.youtube.com/watch?v=".data ++ (id ++ rest))
        = searchP1 ('v' :: '=' :: (id ++ rest)) := rfl
    have hp : p1At ('v' :: '=' :: (id ++ rest)) = matchIdRun (id ++ rest) 11 := rfl
    have hs : searchP1 ("https://www.youtube.com/watch?v=".data ++ (id ++ rest))
        = some id := by rw [hstep, searchP1, hp, h]
    unfold extract_video_id
    rw [hs]
  · have hstep : searchP1 ("https://youtu.be/".data ++ (id ++ rest))
        = searchP1 ('/' :: (id ++ rest)) := rfl
    have hp : p1At ('/' :: (id ++ rest)) = matchIdRun (id ++ rest) 11 := by
      cases hi : id ++ rest with
      | nil => rw [hi] at h; simp [matchIdRun] at h
      | cons a as => rfl
    have hs : searchP1 ("https://youtu.be/".data ++ (id ++ rest)) = some id := by
      rw [hstep, searchP1, hp, h]
    unfold extract_video_id
    rw [hs]
  · intro h1 h2
    unfold extract_video_id
    rw [h1, h2]
  · intro r hr
    unfold extract_video_id
    rw [hr]

/-- C5 witness at the id `3MjS9w60MMw` and a pattern-free input. -/
theorem claim5_witness :
    extract_video_id ("https://www.youtube.com/watch?v=".data
        ++ ("3MjS9w60MMw".data ++ "&t=30s".data)) = .ok "3MjS9w60MMw".data ∧
    extract_video_id "hello world".data
        = .error (.valueError "无法从URL中提取视频ID") := by
  have h := claim5_resolver "3MjS9w60MMw".data "&t=30s".data "hello world".data
    (by decide) (by decide)
  exact ⟨h.1, h.2.2.1 (by decide) (by decide)⟩

/-- C8: the track-listing operation never fails upward — an adapter-level
error yields the empty list — and on success it returns the catalogue's
tracks in order, each carrying locale code, display name and auto-generated
flag. -/
theorem claim8_list_tracks :
    (∀ m : String, get_available_transcript_languages (.error m) = []) ∧
    (∀ ts : List RawTranscript,
      get_available_transcript_languages (.ok ts) = ts.map toLangInfo) ∧
    (∀ (ts : List RawTranscript) (i : Nat),
      (get_available_transcript_languages (.ok ts))[i]? =
        (ts[i]?).map toLangInfo) := by
  refine ⟨fun _ => rfl, fun _ => rfl, fun ts i => ?_⟩
  simp [get_available_transcript_languages]

/-- C8 witness: a raising catalogue call yields the empty list, a successful
one its tracks in order. -/
theorem claim8_witness :
    get_available_transcript_languages (.error "no transcripts") = [] ∧
    get_available_transcript_languages
        (.ok [⟨"en", "English", false⟩, ⟨"zh-Hans", "中文", true⟩])
      = [⟨"en", "English", false⟩, ⟨"zh-Hans", "中文", true⟩] :=
  ⟨claim8_list_tracks.1 "no transcripts",
   claim8_list_tracks.2.1 [⟨"en", "English", false⟩, ⟨"zh-Hans", "中文", true⟩]⟩

/-- C6: with a falsy stored transcript both analysis operations raise the
`ValueError` modelling NoTranscript, and the network-call counter stays 0. -/
theorem claim6_no_transcript (tr : Stored) (prompt key : String)
    (call : Except String LocalResp) (resp : RemoteResp)
    (h : truthy tr = false) :
    analyze_with_local_llm tr prompt call
        = (.error (.valueError "请先获取字幕内容"), 0) ∧
    analyze_with_claude_basic tr key prompt resp
        = (.error (.valueError "请先获取字幕内容"), 0) := by
  unfold analyze_with_local_llm analyze_with_claude_basic
  rw [h]
  exact ⟨rfl, rfl⟩

/-- C6 witness at the initial (unset) stored transcript. -/
theorem claim6_witness :
    analyze_with_local_llm none "总结" (.ok ⟨200, "", "ok"⟩)
        = (.error (.valueError "请先获取字幕内容"), 0) ∧
    analyze_with_claude_basic none "key" "总结" ⟨200, "", ["ok"]⟩
        = (.error (.valueError "请先获取字幕内容"), 0) :=
  claim6_no_transcript none "总结" "key" (.ok ⟨200, "", "ok"⟩) ⟨200, "", ["ok"]⟩ rfl

/-- C7: with a truthy stored transcript, a non-200 remote response raises an
`Exception` whose message carries the status code and the response body
verbatim, and a 200 response returns the first element of the content
array. -/
theorem claim7_remote_errors (tr : Stored) (key prompt : String)
    (resp : RemoteResp) (ht : truthy tr = true) :
    (resp.status ≠ 200 →
      analyze_with_claude_basic tr key prompt resp =
        (.error (.exception
          ("API调用失败: " ++ toString resp.status ++ " - " ++ resp.text)), 1)) ∧
    (∀ c cs, resp.status = 200 → resp.content = c :: cs →
      analyze_with_claude_basic tr key prompt resp = (.ok c, 1)) := by
  unfold analyze_with_claude_basic
  rw [ht]
  constructor
  · intro hne
    rw [if_pos rfl, if_neg hne]
  · intro c cs h200 hcontent
    rw [if_pos rfl, if_pos h200, hcontent]

/-- C7 witness: a 500 response with body `oops`, and a 200 response. -/
theorem claim7_witness :
    analyze_with_claude_basic (some "字幕") "key" "总结" ⟨500, "oops", []⟩ =
      (.error (.exception ("API调用失败: " ++ toString 500 ++ " - " ++ "oops")), 1) ∧
    analyze_with_claude_basic (some "字幕") "key" "总结" ⟨200, "", ["答案"]⟩ =
      (.ok "答案", 1) :=
  ⟨(claim7_remote_errors (some "字幕") "key" "总结" ⟨500, "oops", []⟩ rfl).1
      (by decide),
   (claim7_remote_errors (some "字幕") "key" "总结" ⟨200, "", ["答案"]⟩ rfl).2
      "答案" [] rfl rfl⟩

/-- A concrete world in which ffmpeg is absent and everything else would
succeed. -/
def envNoFfmpeg : MediaEnv :=
  ⟨false, .ok, true, .ok, none, true, true, true, "text", true, "text"⟩

/-- C2 counterexample: with ffmpeg absent, `download_audio_and_transcribe`
does not raise a MissingDependency error — its body returns normally
(`.ok`, caught by no handler because nothing is thrown) with the remediation
string as its ordinary return value. -/
theorem claim2_counterexample :
    mediaBody envNoFfmpeg none =
      ⟨.ok "无法处理音频：缺少ffmpeg。请安装后再试。", none, 0, false⟩ ∧
    download_audio_and_transcribe envNoFfmpeg none =
      "无法处理音频：缺少ffmpeg。请安装后再试。" :=
  ⟨rfl, rfl⟩

/-- C2 amended: with ffmpeg absent the operation fails fast — zero download
attempts, stored transcript untouched, no later step run — but it
communicates the failure by returning the remediation-hint string
`无法处理音频：缺少ffmpeg。请安装后再试。`, not by raising. -/
theorem claim2_amended (env : MediaEnv) (tr : Stored) (h : env.ffmpegOk = false) :
    mediaBody env tr = ⟨.ok "无法处理音频：缺少ffmpeg。请安装后再试。", tr, 0, false⟩ ∧
    download_audio_and_transcribe env tr = "无法处理音频：缺少ffmpeg。请安装后再试。" := by
  have h1 : mediaBody env tr
      = ⟨.ok "无法处理音频：缺少ffmpeg。请安装后再试。", tr, 0, false⟩ := by
    unfold mediaBody
    rw [h]
    rfl
  refine ⟨h1, ?_⟩
  unfold download_audio_and_transcribe
  rw [h1]

/-- C2 witness: a second ffmpeg-less world, with a pending stored value. -/
theorem claim2_witness :
    mediaBody ⟨false, .cpe "x", false, .cpe "x", some "x", false, false, false, "", false, ""⟩
        (some "字幕") =
      ⟨.ok "无法处理音频：缺少ffmpeg。请安装后再试。", some "字幕", 0, false⟩ :=
  (claim2_amended
    ⟨false, .cpe "x", false, .cpe "x", some "x", false, false, false, "", false, ""⟩
    (some "字幕") rfl).1

/-- C4: the selection picks the first `zh`-prefixed track of the catalogue
regardless of its position, and the first track in catalogue order when no
`zh` track exists; the façade requests exactly the selected track's
language whenever the catalogue is non-empty. -/
theorem claim4_zh_preference :
    (∀ (a t : LangInfo) (rest : List LangInfo),
      (a :: rest).find? zhPred = some t → selectLang a rest = t) ∧
    (∀ (a : LangInfo) (rest : List LangInfo),
      (a :: rest).find? zhPred = none → selectLang a rest = a) ∧
    (∀ (env : PipelineEnv) (url : List Char) (prompt : String)
      (r : FacadeResult) (a : LangInfo) (rest : List LangInfo),
      process_youtube_video env url prompt = .ok r →
      r.available_languages = a :: rest →
      r.selected = some (selectLang a rest)) := by
  refine ⟨?_, ?_, ?_⟩
  · intro a t rest hfind
    rw [← filter_head_eq_find] at hfind
    unfold selectLang
    cases hfil : (a :: rest).filter zhPred with
    | nil => rw [hfil] at hfind; exact absurd hfind (by simp)
    | cons c cs =>
        rw [hfil] at hfind
        simp only [List.head?_cons, Option.some.injEq] at hfind
        rw [hfind]
  · intro a rest hfind
    rw [← filter_head_eq_find] at hfind
    unfold selectLang
    cases hfil : (a :: rest).filter zhPred with
    | nil => rfl
    | cons c cs => rw [hfil] at hfind; exact absurd hfind (by simp)
  · intro env url prompt r a rest hok havail
    obtain ⟨vid, hE, hr⟩ := process_ok_elim env url prompt r hok
    subst hr
    rw [facadeRun_available] at havail
    rw [facadeRun_selected, havail]
    rfl

/-- C4 witness: a `zh` track in second position is selected over the first
track. -/
theorem claim4_witness :
    selectLang ⟨"en", "English", false⟩ [⟨"zh-Hans", "中文", true⟩]
      = ⟨"zh-Hans", "中文", true⟩ :=
  claim4_zh_preference.1 ⟨"en", "English", false⟩ ⟨"zh-Hans", "中文", true⟩
    [⟨"zh-Hans", "中文", true⟩] (by decide)

/-- C1: on a successful façade run the fallback is invoked exactly once when
the catalogue is empty, when the fetch of the selected track raises, or when
the fetched joined text is empty (despite the success flag being true
there), and not at all when the fetch succeeds with non-empty text. -/
theorem claim1_fallback_exactly_once (env : PipelineEnv) (url : List Char)
    (prompt : String) (r : FacadeResult)
    (hok : process_youtube_video env url prompt = .ok r) :
    (r.available_languages = [] → r.fallbackCalls = 1) ∧
    (∀ a rest, r.available_languages = a :: rest →
      (∀ m, env.fetch (selectLang a rest).language_code = .error m →
        r.fallbackCalls = 1) ∧
      (∀ entries, env.fetch (selectLang a rest).language_code = .ok entries →
        (joinSpaces entries = "" → r.fallbackCalls = 1) ∧
        (joinSpaces entries ≠ "" → r.fallbackCalls = 0))) := by
  obtain ⟨vid, hE, hr⟩ := process_ok_elim env url prompt r hok
  subst hr
  constructor
  · intro havail
    rw [facadeRun_available] at havail
    rw [facadeRun_calls, havail]
    rfl
  · intro a rest havail
    rw [facadeRun_available] at havail
    refine ⟨?_, ?_⟩
    · intro m hm
      rw [facadeRun_calls, havail]
      simp [acquireCaptions, get_transcript, hm, applyFallback]
    · intro entries hent
      refine ⟨?_, ?_⟩
      · intro hempty
        rw [facadeRun_calls, havail]
        simp [acquireCaptions, get_transcript, hent, applyFallback, hempty]
      · intro hne
        rw [facadeRun_calls, havail]
        simp [acquireCaptions, get_transcript, hent, applyFallback, hne]

/-- A concrete world with one `en` track whose fetch succeeds, and a local
endpoint answering 500. -/
def envLocal500 : PipelineEnv :=
  { listApi := .ok [⟨"en", "English", false⟩]
    fetch := fun _ => .ok ["hello world"]
    media := envNoFfmpeg
    localCall := .ok ⟨500, "Internal Server Error", ""⟩ }

/-- C1 witness: a successful non-empty fetch invokes the fallback zero
times. -/
theorem claim1_witness :
    (facadeRun envLocal500 "3MjS9w60MMw".data "总结").fallbackCalls = 0 :=
  (((claim1_fallback_exactly_once envLocal500 "https://youtu.be/3MjS9w60MMw".data
      "总结" (facadeRun envLocal500 "3MjS9w60MMw".data "总结") rfl).2
    ⟨"en", "English", false⟩ [] rfl).2 ["hello world"] rfl).2 (by decide)

/-- The resolver fails only with its fixed `ValueError`. -/
theorem extract_error_msg (url : List Char) (e : PyErr)
    (h : extract_video_id url = .error e) :
    e = .valueError "无法从URL中提取视频ID" := by
  unfold extract_video_id at h
  cases h1 : searchP1 url with
  | some r => rw [h1] at h; exact absurd h (by simp)
  | none =>
      rw [h1] at h
      cases h2 : searchP2 url with
      | some r => rw [h2] at h; exact absurd h (by simp)
      | none =>
          rw [h2] at h
          injection h with h3
          exact h3.symm

/-- C3 counterexample: when the local endpoint answers 500, the façade's
analysis field is the error string returned by `analyze_with_local_llm`, not
the sentinel `未进行分析`. -/
theorem claim3_counterexample :
    (process_youtube_video envLocal500 "https://youtu.be/3MjS9w60MMw".data
        "总结").map (fun r => (r.analysis, r.transcript)) =
      .ok ("分析失败: 500 - Internal Server Error", "hello world") ∧
    ("分析失败: 500 - Internal Server Error" : String) ≠ "未进行分析" :=
  ⟨rfl, by decide⟩

/-- C3 amended: no exception leaves the façade except the resolver's
`ValueError` (InvalidReference); on a non-200 local response with a truthy
stored transcript the analysis field equals the non-200 error string
`分析失败: status - body` instead of the sentinel. -/
theorem claim3_amended (env : PipelineEnv) (url : List Char) (prompt : String) :
    (∀ e, process_youtube_video env url prompt = .error e →
      e = .valueError "无法从URL中提取视频ID") ∧
    (∀ r resp, process_youtube_video env url prompt = .ok r →
      env.localCall = .ok resp → resp.status ≠ 200 →
      r.transcript ≠ "" → truthy r.stored = true →
      r.analysis = "分析失败: " ++ toString resp.status ++ " - " ++ resp.text) := by
  constructor
  · intro e he
    unfold process_youtube_video at he
    cases hE : extract_video_id url with
    | error e2 =>
        rw [hE] at he
        injection he with h2
        rw [← h2]
        exact extract_error_msg url e2 hE
    | ok vid => rw [hE] at he; exact absurd he (by simp)
  · intro r resp hok hcall h200 htr hst
    obtain ⟨vid, hE, hr⟩ := process_ok_elim env url prompt r hok
    subst hr
    rw [facadeRun_transcript] at htr
    rw [facadeRun_stored] at hst
    rw [facadeRun_analysis]
    unfold analysisStep
    rw [if_neg htr]
    unfold analyze_with_local_llm
    rw [hst, hcall, if_pos rfl]
    dsimp only
    rw [if_neg h200]

/-- C3 witness for the amended behavior, at the concrete 500 world. -/
theorem claim3_witness :
    (facadeRun envLocal500 "3MjS9w60MMw".data "总结").analysis
      = "分析失败: " ++ toString 500 ++ " - " ++ "Internal Server Error" :=
  (claim3_amended envLocal500 "https://youtu.be/3MjS9w60MMw".data "总结").2
    (facadeRun envLocal500 "3MjS9w60MMw".data "总结") ⟨500, "Internal Server Error", ""⟩
    rfl rfl (by decide) (by decide) (by decide)

theorem mediaReadback_success_spec (fe : Bool) (t : String) (tr : Stored) (d : Nat)
    (h : (mediaReadback fe t tr d).readbackOk = true) :
    (mediaReadback fe t tr d).result = .ok t ∧
      (mediaReadback fe t tr d).stored = some t := by
  cases fe with
  | true => exact ⟨rfl, rfl⟩
  | false => simp [mediaReadback] at h

theorem mediaTranscribe_success_spec (env : MediaEnv) (tr : Stored) (d : Nat)
    (h : (mediaTranscribe env tr d).readbackOk = true) :
    ∃ t, (mediaTranscribe env tr d).result = .ok t ∧
      (mediaTranscribe env tr d).stored = some t := by
  unfold mediaTranscribe at *
  by_cases h1 : env.whisperCliOk
  · rw [if_pos h1] at h ⊢
    exact ⟨env.cliFileText, mediaReadback_success_spec _ _ _ _ h⟩
  · rw [if_neg h1] at h ⊢
    by_cases h2 : env.whisperApiOk
    · rw [if_pos h2] at h ⊢
      exact ⟨env.whisperApiText, mediaReadback_success_spec _ _ _ _ h⟩
    · rw [if_neg h2] at h
      exact absurd h (by simp)

theorem mediaAfterDownload_success_spec (env : MediaEnv) (tr : Stored) (d : Nat)
    (h : (mediaAfterDownload env tr d).readbackOk = true) :
    ∃ t, (mediaAfterDownload env tr d).result = .ok t ∧
      (mediaAfterDownload env tr d).stored = some t := by
  unfold mediaAfterDownload at *
  by_cases h1 : env.audioExists
  · rw [if_pos h1] at h ⊢
    exact mediaTranscribe_success_spec _ _ _ h
  · rw [if_neg h1] at h
    exact absurd h (by simp)

/-- A successful readback returns exactly the text it stored. -/
theorem mediaBody_success_spec (env : MediaEnv) (tr : Stored)
    (h : (mediaBody env tr).readbackOk = true) :
    ∃ t, (mediaBody env tr).result = .ok t ∧ (mediaBody env tr).stored = some t := by
  revert h
  unfold mediaBody
  cases hf : env.ffmpegOk with
  | false => intro h; exact absurd h (by simp)
  | true =>
      cases hd : env.download with
      | oserr m => intro h; exact absurd h (by simp)
      | cpe m =>
          cases hfb : env.fallbackDl with
          | some m2 => intro h; exact absurd h (by simp)
          | none => exact fun h => mediaAfterDownload_success_spec _ _ _ h
      | ok =>
          cases hff : env.filesFound with
          | false => intro h; exact absurd h (by simp)
          | true =>
              cases hc : env.convert with
              | oserr m => intro h; exact absurd h (by simp)
              | cpe m =>
                  cases hfb : env.fallbackDl with
                  | some m2 => intro h; exact absurd h (by simp)
                  | none => exact fun h => mediaAfterDownload_success_spec _ _ _ h
              | ok => exact fun h => mediaAfterDownload_success_spec _ _ _ h

/-- A world in which the whisper CLI succeeds but the transcript file it
leaves behind is empty. -/
def envEmptyReadback : MediaEnv :=
  ⟨true, .ok, true, .ok, none, true, true, true, "", false, ""⟩

/-- A pipeline world with no captions and the empty-readback media world. -/
def envPipeEmpty : PipelineEnv :=
  { listApi := .error "TranscriptsDisabled"
    fetch := fun _ => .error "err"
    media := envEmptyReadback
    localCall := .ok ⟨200, "", "答案"⟩ }

/-- C9 counterexample: the fallback runs and "succeeds" reading back an empty
transcription, so the façade's transcript field is empty and the analysis
step is skipped — refuting "transcript is never empty and analysis is always
attempted after the fallback runs". -/
theorem claim9_counterexample :
    (process_youtube_video envPipeEmpty "https://youtu.be/3MjS9w60MMw".data
        "总结").map
        (fun r => (r.fallbackCalls, r.transcript, r.analysisAttempted, r.analysis)) =
      .ok (1, "", false, "未进行分析") := rfl

/-- C9 amended: the fallback never raises to its caller (its model is a total
function into `String`); every failure path — readback not reached — returns
a non-empty error string, and an empty return can only come from a successful
readback of empty text (which also stores that empty text).  Consequently,
whenever the fallback ran and its readback did not succeed, the façade's
transcript is non-empty and analysis is attempted. -/
theorem claim9_amended (menv : MediaEnv) (tr : Stored) (env : PipelineEnv)
    (url : List Char) (prompt : String) (r : FacadeResult) :
    ((mediaBody menv tr).readbackOk = false →
      download_audio_and_transcribe menv tr ≠ "") ∧
    (download_audio_and_transcribe menv tr = "" →
      (mediaBody menv tr).readbackOk = true ∧ (mediaBody menv tr).stored = some "") ∧
    (process_youtube_video env url prompt = .ok r → r.fallbackCalls = 1 →
      r.fallbackReadbackOk = false →
      r.transcript ≠ "" ∧ r.analysisAttempted = true) := by
  refine ⟨fun h => download_ne_empty_of_fail menv tr h, ?_, ?_⟩
  · intro hempty
    cases hrb : (mediaBody menv tr).readbackOk with
    | false => exact absurd hempty (download_ne_empty_of_fail menv tr hrb)
    | true =>
        obtain ⟨t, hres, hst⟩ := mediaBody_success_spec menv tr hrb
        refine ⟨rfl, ?_⟩
        unfold download_audio_and_transcribe at hempty
        rw [hres] at hempty
        have ht : t = "" := hempty
        rw [hst, ht]
  · intro hok hcalls hrb
    obtain ⟨vid, hE, hr⟩ := process_ok_elim env url prompt r hok
    subst hr
    rw [facadeRun_calls] at hcalls
    rw [facadeRun_readback] at hrb
    rw [facadeRun_transcript, facadeRun_attempted]
    unfold applyFallback at hcalls hrb ⊢
    by_cases hcond : (!(acquireCaptions env.fetch
        (get_available_transcript_languages env.listApi)).success
      || (acquireCaptions env.fetch
        (get_available_transcript_languages env.listApi)).text = "") = true
    · rw [if_pos hcond] at hrb ⊢
      have hne := download_ne_empty_of_fail _ _ hrb
      refine ⟨hne, ?_⟩
      unfold analysisStep
      rw [if_neg hne]
      cases (analyze_with_local_llm
        (mediaBody env.media (acquireCaptions env.fetch
          (get_available_transcript_languages env.listApi)).stored).stored
        prompt env.localCall).1 with
      | ok s => rfl
      | error e => rfl
    · rw [if_neg hcond] at hcalls
      simp at hcalls

/-- A media world in which both transcription strategies fail. -/
def envWhisperFail : MediaEnv :=
  ⟨true, .ok, true, .ok, none, true, false, false, "", false, ""⟩

/-- C9 witness: with both transcription strategies failing the fallback
returns a non-empty error string. -/
theorem claim9_witness :
    download_audio_and_transcribe envWhisperFail none ≠ "" :=
  (claim9_amended envWhisperFail none envPipeEmpty [] ""
    (facadeRun envPipeEmpty [] "")).1 rfl

/-- C10: when the fallback ran and did not reach a successful readback, the
stored transcript is still falsy (it is set only by a successful fetch or a
successful readback — a fetch of empty text stores only the falsy empty
string), while the returned transcript field is a non-empty error message;
the analysis call therefore raises the NoTranscript `ValueError` without any
network call, and the façade's analysis field stays at the sentinel. -/
theorem claim10_stored_invariant (env : PipelineEnv) (url : List Char)
    (prompt : String) (r : FacadeResult)
    (hok : process_youtube_video env url prompt = .ok r)
    (hcalls : r.fallbackCalls = 1) (hrb : r.fallbackReadbackOk = false) :
    truthy r.stored = false ∧
    r.transcript ≠ "" ∧
    analyze_with_local_llm r.stored prompt env.localCall
      = (.error (.valueError "请先获取字幕内容"), 0) ∧
    r.analysis = "未进行分析" ∧
    r.analysisAttempted = true := by
  obtain ⟨vid, hE, hr⟩ := process_ok_elim env url prompt r hok
  subst hr
  rw [facadeRun_calls] at hcalls
  rw [facadeRun_readback] at hrb
  rw [facadeRun_stored, facadeRun_transcript, facadeRun_analysis,
    facadeRun_attempted]
  unfold applyFallback at hcalls hrb ⊢
  by_cases hcond : (!(acquireCaptions env.fetch
      (get_available_transcript_languages env.listApi)).success
    || (acquireCaptions env.fetch
      (get_available_transcript_languages env.listApi)).text = "") = true
  · rw [if_pos hcond] at hrb ⊢
    have hstored := (mediaBody_fail_spec _ _ hrb).1
    have hfalsy : truthy (acquireCaptions env.fetch
        (get_available_transcript_languages env.listApi)).stored = false :=
      acquire_stored_falsy _ _ hcond
    have hne := download_ne_empty_of_fail _ _ hrb
    rw [hstored]
    have hanalyze : analyze_with_local_llm
        (acquireCaptions env.fetch
          (get_available_transcript_languages env.listApi)).stored
        prompt env.localCall
        = (.error (.valueError "请先获取字幕内容"), 0) := by
      unfold analyze_with_local_llm
      rw [hfalsy]
      rfl
    refine ⟨hfalsy, hne, hanalyze, ?_, ?_⟩
    · unfold analysisStep
      rw [if_neg hne]
      dsimp only
      rw [hanalyze]
    · unfold analysisStep
      rw [if_neg hne]
      dsimp only
      rw [hanalyze]
  · rw [if_neg hcond] at hcalls
    simp at hcalls

/-- A pipeline world with no captions and a failing fallback. -/
def envPipeFail : PipelineEnv :=
  { listApi := .error "TranscriptsDisabled"
    fetch := fun _ => .error "err"
    media := envWhisperFail
    localCall := .ok ⟨200, "", "答案"⟩ }

/-- C10 witness: at the failing-fallback world the stored transcript is falsy
and the analysis field stays at the sentinel. -/
theorem claim10_witness :
    truthy (facadeRun envPipeFail "3MjS9w60MMw".data "总结").stored = false ∧
    (facadeRun envPipeFail "3MjS9w60MMw".data "总结").analysis = "未进行分析" :=
  have h := claim10_stored_invariant envPipeFail
    "https://youtu.be/3MjS9w60MMw".data "总结"
    (facadeRun envPipeFail "3MjS9w60MMw".data "总结") rfl rfl rfl
  ⟨h.1, h.2.2.2.1⟩

end YT
